import Mathlib

/-
  Verification development for bilibili_api/utils/initial_state.py.

  Page text, regex captures and HTTP bodies are modelled as `List Char`.
  The two regular expressions of `_process_content` are embedded as
  explicit leftmost-search functions with Python `re` semantics:
  `.` does not match a newline, `.*?` is non-greedy (shortest match at the
  leftmost start position), `\s*` is greedy and matches whitespace
  including newlines.  `json.loads` is embedded as a standard recursive
  descent JSON parser (`jsonLoads`); numbers are kept as their lexemes and
  objects keep their member list in source order, which is enough to
  distinguish every parse outcome the theorems below mention.
  Network effects are modelled by passing each function the outcome of the
  HTTP calls it performs (an `Option HResponse`: `none` models a raised
  transport exception) and, for the proxy loop, an oracle giving the
  outcome of the i-th proxied GET.
-/

/-- Enum `InitialDataType` (initial_state.py lines 22-27). -/
inductive InitialDataType
  | INITIAL_STATE
  | NEXT_DATA
  deriving DecidableEq

/-- JSON values as produced by `json.loads`.  Numbers keep their source
lexeme; object members are kept as an ordered list of key/value pairs. -/
inductive Json
  | jnull
  | jbool (b : Bool)
  | jnum (lexeme : List Char)
  | jstr (s : List Char)
  | jarr (items : List Json)
  | jobj (members : List (List Char × Json))

/-- Whitespace skipped by the Python json scanner: space, tab, newline,
carriage return. -/
def isJsonWs (c : Char) : Bool :=
  c == ' ' || c == '\t' || c == '\n' || c == '\r'

/-- Skip json whitespace. -/
def skipWs (l : List Char) : List Char := l.dropWhile isJsonWs

/-- Value of a hexadecimal digit. -/
def hexDigitVal (c : Char) : Option Nat :=
  if '0' ≤ c ∧ c ≤ '9' then some (c.toNat - ('0').toNat)
  else if 'a' ≤ c ∧ c ≤ 'f' then some (c.toNat - ('a').toNat + 10)
  else if 'A' ≤ c ∧ c ≤ 'F' then some (c.toNat - ('A').toNat + 10)
  else none

/-- Decoding of a backslash escape in a JSON string. -/
def escChar : Char → Option Char
  | '"' => some '"'
  | '\\' => some '\\'
  | '/' => some '/'
  | 'b' => some (Char.ofNat 8)
  | 'f' => some (Char.ofNat 12)
  | 'n' => some '\n'
  | 'r' => some '\r'
  | 't' => some '\t'
  | _ => none

/-- Body of a JSON string after the opening quote: returns the decoded
characters and the remainder after the closing quote.  Literal control
characters are rejected (strict mode of `json.loads`). -/
def parseStringGo : Nat → List Char → Option (List Char × List Char)
  | 0, _ => none
  | _, [] => none
  | fuel + 1, c :: rest =>
    if c = '"' then some ([], rest)
    else if c = '\\' then
      match rest with
      | [] => none
      | e :: rest2 =>
        if e = 'u' then
          match rest2 with
          | h1 :: h2 :: h3 :: h4 :: rest3 =>
            match hexDigitVal h1, hexDigitVal h2, hexDigitVal h3, hexDigitVal h4 with
            | some a, some b, some c2, some d =>
              (parseStringGo fuel rest3).map
                (fun p => (Char.ofNat (((a * 16 + b) * 16 + c2) * 16 + d) :: p.1, p.2))
            | _, _, _, _ => none
          | _ => none
        else
          match escChar e with
          | none => none
          | some ec => (parseStringGo fuel rest2).map (fun p => (ec :: p.1, p.2))
    else if c.toNat < 32 then none
    else (parseStringGo fuel rest).map (fun p => (c :: p.1, p.2))

/-- JSON string body with sufficient fuel. -/
def parseString (l : List Char) : Option (List Char × List Char) :=
  parseStringGo (l.length + 1) l

/-- Longest digit prefix and the remainder. -/
def digitSpan (l : List Char) : List Char × List Char :=
  (l.takeWhile Char.isDigit, l.dropWhile Char.isDigit)

/-- Integer part of a JSON number: `0` or a nonzero digit followed by
digits (the regex `0|[1-9][0-9]*` used by the Python json scanner). -/
def parseIntPart : List Char → Option (List Char × List Char)
  | '0' :: rest => some (['0'], rest)
  | c :: rest =>
    if c.isDigit then some (c :: (digitSpan rest).1, (digitSpan rest).2) else none
  | [] => none

/-- Optional fraction part `\.[0-9]+`; consumed only when fully present. -/
def parseFrac (l : List Char) : List Char × List Char :=
  match l with
  | '.' :: rest =>
    let p := digitSpan rest
    if p.1 = [] then ([], l) else ('.' :: p.1, p.2)
  | _ => ([], l)

/-- Optional exponent part `[eE][+-]?[0-9]+`; consumed only when fully
present. -/
def parseExp (l : List Char) : List Char × List Char :=
  match l with
  | e :: rest =>
    if e = 'e' ∨ e = 'E' then
      match rest with
      | s :: rest2 =>
        if s = '+' ∨ s = '-' then
          let p := digitSpan rest2
          if p.1 = [] then ([], l) else (e :: s :: p.1, p.2)
        else
          let p := digitSpan rest
          if p.1 = [] then ([], l) else (e :: p.1, p.2)
      | [] => ([], l)
    else ([], l)
  | [] => ([], l)

/-- Lexeme of a JSON number, mirroring the scanner regex
`(-?(?:0|[1-9][0-9]*))(\.[0-9]+)?([eE][-+]?[0-9]+)?`. -/
def parseNumber (l : List Char) : Option (List Char × List Char) :=
  match l with
  | '-' :: r =>
    (match parseIntPart r with
     | none => none
     | some (ip, r1) =>
       let f := parseFrac r1
       let e := parseExp f.2
       some ('-' :: (ip ++ f.1 ++ e.1), e.2))
  | _ =>
    match parseIntPart l with
    | none => none
    | some (ip, r1) =>
      let f := parseFrac r1
      let e := parseExp f.2
      some (ip ++ f.1 ++ e.1, e.2)

mutual

/-- One JSON value (leading whitespace allowed), with the remainder. -/
def parseValue : Nat → List Char → Option (Json × List Char)
  | 0, _ => none
  | fuel + 1, l =>
    match skipWs l with
    | 'n' :: 'u' :: 'l' :: 'l' :: r => some (.jnull, r)
    | 't' :: 'r' :: 'u' :: 'e' :: r => some (.jbool true, r)
    | 'f' :: 'a' :: 'l' :: 's' :: 'e' :: r => some (.jbool false, r)
    | 'N' :: 'a' :: 'N' :: r => some (.jnum (['N', 'a', 'N']), r)
    | 'I' :: 'n' :: 'f' :: 'i' :: 'n' :: 'i' :: 't' :: 'y' :: r =>
      some (.jnum (['I', 'n', 'f']), r)
    | '-' :: 'I' :: 'n' :: 'f' :: 'i' :: 'n' :: 'i' :: 't' :: 'y' :: r =>
      some (.jnum (['-', 'I', 'n', 'f']), r)
    | '"' :: r => (parseString r).map (fun p => (.jstr p.1, p.2))
    | '{' :: r =>
      (match skipWs r with
       | '}' :: r2 => some (.jobj [], r2)
       | _ => (parseMembers fuel (skipWs r)).map (fun p => (.jobj p.1, p.2)))
    | '[' :: r =>
      (match skipWs r with
       | ']' :: r2 => some (.jarr [], r2)
       | _ => (parseItems fuel (skipWs r)).map (fun p => (.jarr p.1, p.2)))
    | r => (parseNumber r).map (fun p => (.jnum p.1, p.2))

/-- Members of a JSON object, positioned at the first key. -/
def parseMembers : Nat → List Char → Option (List (List Char × Json) × List Char)
  | 0, _ => none
  | fuel + 1, l =>
    match l with
    | '"' :: r =>
      (match parseString r with
       | none => none
       | some (key, r2) =>
         match skipWs r2 with
         | ':' :: r3 =>
           (match parseValue fuel r3 with
            | none => none
            | some (v, r4) =>
              match skipWs r4 with
              | ',' :: r5 => (parseMembers fuel (skipWs r5)).map (fun p => ((key, v) :: p.1, p.2))
              | '}' :: r5 => some ([(key, v)], r5)
              | _ => none)
         | _ => none)
    | _ => none

/-- Items of a JSON array, positioned at the first item. -/
def parseItems : Nat → List Char → Option (List Json × List Char)
  | 0, _ => none
  | fuel + 1, l =>
    match parseValue fuel l with
    | none => none
    | some (v, r) =>
      match skipWs r with
      | ',' :: r2 => (parseItems fuel r2).map (fun p => (v :: p.1, p.2))
      | ']' :: r2 => some ([v], r2)
      | _ => none

end

/-- Model of `json.loads`: one value, then only trailing whitespace.
Returns `none` where `json.loads` raises `JSONDecodeError`. -/
def jsonLoads (l : List Char) : Option Json :=
  match parseValue (l.length + 1) l with
  | some (v, rest) => if skipWs rest = [] then some v else none
  | none => none

/-- Literal `window` of pattern 1 (line 217); the regex character after it
is `.`, matching any character except a newline. -/
def windowLit : List Char := ['w', 'i', 'n', 'd', 'o', 'w']

/-- Literal `__INITIAL_STATE__=` of pattern 1 (line 217). -/
def stateLit : List Char :=
  ['_', '_', 'I', 'N', 'I', 'T', 'I', 'A', 'L', '_', 'S', 'T', 'A', 'T', 'E', '_', '_', '=']

/-- The two-character terminator `};` of pattern 1's capture. -/
def closeLit : List Char := ['}', ';']

/-- Strip an exact literal prefix, returning the remainder. -/
def stripLit : List Char → List Char → Option (List Char)
  | [], s => some s
  | _ :: _, [] => none
  | c :: cs, d :: ds => if c = d then stripLit cs ds else none

/-- Does `pat` occur at the start of `l`? -/
def begins : List Char → List Char → Bool
  | [], _ => true
  | _ :: _, [] => false
  | c :: cs, d :: ds => if c = d then begins cs ds else false

/-- Does `pat` occur contiguously anywhere in the second list? -/
def occursIn (pat : List Char) : List Char → Bool
  | [] => pat.isEmpty
  | c :: rest => begins pat (c :: rest) || occursIn pat rest

/-- Non-greedy scan of `\{.*?\});` after the opening brace: the shortest
run of non-newline characters followed by `};`.  Returns the characters
between the braces, or `none` when a newline or the end of input is
reached first. -/
def scanClose : List Char → Option (List Char)
  | [] => none
  | [_] => none
  | c :: d :: rest =>
    if c = '}' ∧ d = ';' then some []
    else if c = '\n' then none
    else (scanClose (d :: rest)).map (fun t => c :: t)

/-- Match of pattern 1, `window.__INITIAL_STATE__=(\{.*?\});`, anchored at
the start of `s`; returns capture group 1. -/
def matchISAt (s : List Char) : Option (List Char) :=
  match stripLit windowLit s with
  | none => none
  | some r =>
    match r with
    | [] => none
    | c :: r2 =>
      if c = '\n' then none
      else
        match stripLit stateLit r2 with
        | none => none
        | some r3 =>
          match r3 with
          | '{' :: r4 => (scanClose r4).map (fun inner => '{' :: (inner ++ ['}']))
          | _ => none

/-- Leftmost search with pattern 1, as `re.search` does on line 218:
try every start position from the left, returning the first capture. -/
def searchIS : List Char → Option (List Char)
  | [] => none
  | c :: rest =>
    match matchISAt (c :: rest) with
    | some g => some g
    | none => searchIS rest

/-- Header literal of pattern 2 (lines 222-224). -/
def ndHeaderLit : List Char :=
  ("<script id=\"__NEXT_DATA__\" type=\"application/json\">").toList

/-- Closing literal of pattern 2. -/
def scriptCloseLit : List Char := ("</script>").toList

/-- Whitespace class `\s` of Python `re` (ASCII part). -/
def isReWs (c : Char) : Bool :=
  c == ' ' || c == '\t' || c == '\n' || c == '\r' || c == '\x0b' || c == '\x0c'

/-- Length of the maximal whitespace prefix. -/
def wsPrefixLen (l : List Char) : Nat := (l.takeWhile isReWs).length

/-- Does `\s*</script>` match a prefix of `l`?  Since `<` is not
whitespace, the greedy `\s*` is forced to take the maximal run. -/
def tailCloseOk (l : List Char) : Bool :=
  begins scriptCloseLit (l.drop (wsPrefixLen l))

/-- Non-greedy scan of `(.*?)\s*</script>`: the shortest run of
non-newline characters after which `\s*</script>` matches. -/
def scanCapture : List Char → Option (List Char)
  | [] => none
  | c :: rest =>
    if tailCloseOk (c :: rest) then some []
    else if c = '\n' then none
    else (scanCapture rest).map (fun t => c :: t)

/-- Backtracking of the first, greedy `\s*` of pattern 2: try the longest
whitespace prefix first, shrinking it until the rest of the pattern
matches. -/
def tryFromWs : Nat → List Char → Option (List Char)
  | 0, r => scanCapture r
  | k + 1, r =>
    match scanCapture (r.drop (k + 1)) with
    | some cap => some cap
    | none => tryFromWs k r

/-- Match of pattern 2,
`<script id="__NEXT_DATA__" type="application/json">\s*(.*?)\s*</script>`,
anchored at the start of `s`; returns capture group 1. -/
def matchNDAt (s : List Char) : Option (List Char) :=
  match stripLit ndHeaderLit s with
  | none => none
  | some r => tryFromWs (wsPrefixLen r) r

/-- Leftmost search with pattern 2 (line 225). -/
def searchND : List Char → Option (List Char)
  | [] => none
  | c :: rest =>
    match matchNDAt (c :: rest) with
    | some g => some g
    | none => searchND rest

/-- Failure conditions of `_process_content`: `ApiException("页面中未找到初
始化数据")` (state not found, line 229) and `ApiException("初始化数据解析失
败")` (payload unparsable, line 237). -/
inductive ExtractError
  | stateNotFound
  | payloadUnparsable
  deriving DecidableEq

/-- Model of `_process_content` (lines 203-239): try pattern 1, else
pattern 2, else fail; then `json.loads` the capture, failing with the
distinct parse error when it is malformed. -/
def processContent (content : List Char) : Except ExtractError (Json × InitialDataType) :=
  match searchIS content with
  | some g =>
    (match jsonLoads g with
     | some v => .ok (v, .INITIAL_STATE)
     | none => .error .payloadUnparsable)
  | none =>
    match searchND content with
    | none => .error .stateNotFound
    | some g =>
      match jsonLoads g with
      | some v => .ok (v, .NEXT_DATA)
      | none => .error .payloadUnparsable

/-- An httpx response: status code and body text. -/
structure HResponse where
  status : Nat
  text : List Char
  deriving DecidableEq

/-- Whitespace stripped by Python `str.strip()` (ASCII part). -/
def isPyWs (c : Char) : Bool :=
  c == ' ' || c == '\t' || c == '\n' || c == '\r' || c == '\x0b' || c == '\x0c'

/-- Model of Python `str.strip()`. -/
def pyStrip (l : List Char) : List Char :=
  ((l.dropWhile isPyWs).reverse.dropWhile isPyWs).reverse

/-- Model of Python `str.split("\r\n")`: split on each occurrence of the
exact two-character separator, scanning left to right. -/
def splitCRLF : List Char → List (List Char)
  | [] => [[]]
  | [c] => [[c]]
  | c :: d :: rest =>
    if c = '\r' ∧ d = '\n' then [] :: splitCRLF rest
    else
      match splitCRLF (d :: rest) with
      | [] => [[c]]
      | l :: ls => (c :: l) :: ls

/-- The endpoint prefix added to each proxy line. -/
def httpLit : List Char := ("http://").toList

/-- Model of `get_free_proxies` (lines 30-59): `listing` is the outcome of
the GET against the proxy-listing endpoint, `none` standing for a raised
transport exception (caught on line 56).  On a 200 response the body is
stripped, split on `"\r\n"`, empty lines are dropped and each line is
prefixed with `http://`; every other outcome yields `[]`. -/
def get_free_proxies (listing : Option HResponse) : List (List Char) :=
  match listing with
  | none => []
  | some r =>
    if r.status = 200 then
      ((splitCRLF (pyStrip r.text)).filter (fun l => !l.isEmpty)).map
        (fun p => httpLit ++ p)
    else []

/-- Model of `get_free_proxies_sync` (lines 117-143); the logic is the
same as the asynchronous version. -/
def get_free_proxies_sync (listing : Option HResponse) : List (List Char) :=
  match listing with
  | none => []
  | some r =>
    if r.status = 200 then
      ((splitCRLF (pyStrip r.text)).filter (fun l => !l.isEmpty)).map
        (fun p => httpLit ++ p)
    else []

/-- Outcome of one proxied GET: a response, or a raised transport
exception (caught on lines 110-112 / 195-198). -/
inductive AttemptResult
  | ok (r : HResponse)
  | exn
  deriving DecidableEq

/-- Did this attempt return a response with status 200? -/
def attemptOk : AttemptResult → Bool
  | .ok r => r.status == 200
  | .exn => false

/-- Failure conditions of the fallback fetchers: `Exception("无法获取可用代
理")` (line 83/167) and `Exception("所有代理均请求失败")` (line 114/200).
Neither message interpolates any value, so neither constructor carries
one. -/
inductive FetchError
  | proxyUnavailable
  | allProxiesExhausted
  deriving DecidableEq

/-- The `for i, proxy in enumerate(proxies, 1)` loop (lines 87-112 and
171-198): try each proxy in order; a 200 response is returned at once,
any other status or a transport error moves on to the next proxy.
`attempt i` is the outcome of the GET through the proxy of index `i`
(0-based).  Returns the proxies attempted, in order, and the accepted
response if any.  The `time.sleep(1)` calls of the synchronous variant
only delay and are not modelled. -/
def proxyLoop (attempt : Nat → AttemptResult) : Nat → List (List Char) → List (List Char) × Option HResponse
  | _, [] => ([], none)
  | i, p :: rest =>
    match attempt i with
    | .ok r =>
      if r.status = 200 then ([p], some r)
      else
        let t := proxyLoop attempt (i + 1) rest
        (p :: t.1, t.2)
    | .exn =>
      let t := proxyLoop attempt (i + 1) rest
      (p :: t.1, t.2)

/-- Model of `fetch_with_proxy` (lines 62-114): fetch the proxy list, fail
at once when it is empty, otherwise run the loop and fail when no proxy
returned a 200 response.  The first component is the list of proxies
actually attempted, in order. -/
def fetch_with_proxy (listing : Option HResponse) (attempt : Nat → AttemptResult) :
    List (List Char) × Except FetchError HResponse :=
  let proxies := get_free_proxies listing
  if proxies = [] then ([], .error .proxyUnavailable)
  else
    match proxyLoop attempt 0 proxies with
    | (t, some r) => (t, .ok r)
    | (t, none) => (t, .error .allProxiesExhausted)

/-- Model of `fetch_with_proxy_sync` (lines 146-200); identical logic to
the asynchronous version, using the synchronous proxy source. -/
def fetch_with_proxy_sync (listing : Option HResponse) (attempt : Nat → AttemptResult) :
    List (List Char) × Except FetchError HResponse :=
  let proxies := get_free_proxies_sync listing
  if proxies = [] then ([], .error .proxyUnavailable)
  else
    match proxyLoop attempt 0 proxies with
    | (t, some r) => (t, .ok r)
    | (t, none) => (t, .error .allProxiesExhausted)

/-- Underlying cause wrapped by the orchestrators' blanket
`except Exception as e: raise ApiException(f"请求失败：{e}")`. -/
inductive Cause
  | fetch (e : FetchError)
  | transport
  | extract (e : ExtractError)
  deriving DecidableEq

/-- The single outward-facing failure of `get_initial_state` /
`get_initial_state_sync` (lines 280 and 320). -/
inductive ApiFail
  | requestFailed (cause : Cause)
  deriving DecidableEq

/-- Is `os.environ.get("USE_PROXY", "").lower() == "true"` (lines 264 and
305)?  `env` is the raw value of the variable, `none` when absent. -/
def useProxyOn (env : Option (List Char)) : Bool :=
  (env.getD []).map Char.toLower = ("true").toList

/-- Model of `get_initial_state` (lines 242-280).  `env` is the value of
`USE_PROXY`; `listing` and `attempt` are the outcomes of the network calls
of the proxy path; `sessionGet` is the outcome of the direct GET through
the shared session collaborator (`get_session()`, line 269), `none`
standing for a raised transport error.  The second component records
whether the proxy source was consulted (which in the code happens exactly
when `fetch_with_proxy` runs, line 266). -/
def get_initial_state (env : Option (List Char)) (listing : Option HResponse)
    (attempt : Nat → AttemptResult) (sessionGet : Option HResponse) :
    Except ApiFail (Json × InitialDataType) × Bool :=
  if useProxyOn env then
    match fetch_with_proxy listing attempt with
    | (_, .error e) => (.error (.requestFailed (.fetch e)), true)
    | (_, .ok r) =>
      (match processContent r.text with
       | .ok x => .ok x
       | .error e => .error (.requestFailed (.extract e)), true)
  else
    match sessionGet with
    | none => (.error (.requestFailed .transport), false)
    | some r =>
      (match processContent r.text with
       | .ok x => .ok x
       | .error e => .error (.requestFailed (.extract e)), false)

/-- Model of `get_initial_state_sync` (lines 283-320).  The direct-mode
request is issued with a fresh top-level `httpx.get` call (line 310), not
through the shared session collaborator, so the direct oracle here is
`httpxGet`, a distinct collaborator from `sessionGet` above. -/
def get_initial_state_sync (env : Option (List Char)) (listing : Option HResponse)
    (attempt : Nat → AttemptResult) (httpxGet : Option HResponse) :
    Except ApiFail (Json × InitialDataType) × Bool :=
  if useProxyOn env then
    match fetch_with_proxy_sync listing attempt with
    | (_, .error e) => (.error (.requestFailed (.fetch e)), true)
    | (_, .ok r) =>
      (match processContent r.text with
       | .ok x => .ok x
       | .error e => .error (.requestFailed (.extract e)), true)
  else
    match httpxGet with
    | none => (.error (.requestFailed .transport), false)
    | some r =>
      (match processContent r.text with
       | .ok x => .ok x
       | .error e => .error (.requestFailed (.extract e)), false)

/-- Non-newline test (what `.` may consume in the embedded patterns). -/
def nonNl (c : Char) : Bool := decide (c ≠ '\n')

/-- The CRLF separator used by `split("\r\n")`. -/
def crlfLit : List Char := ['\r', '\n']

/-- CRLF-delimited join: the shape of the proxy-listing body the claim
speaks about (newline-delimited host:port lines). -/
def joinCRLF : List (List Char) → List Char
  | [] => []
  | [l] => l
  | l :: ls => l ++ crlfLit ++ joinCRLF ls

/-- Page text of the shape the C10 claim describes: the literal marker
`window.__INITIAL_STATE__=`, an opening brace, a payload `ibody`, and the
terminating semicolon. -/
def mkISText (ibody : List Char) : List Char :=
  windowLit ++ '.' :: (stateLit ++ '{' :: (ibody ++ [';']))

theorem stripLit_append (lit rest : List Char) : stripLit lit (lit ++ rest) = some rest := by
  induction lit with
  | nil => rfl
  | cons c cs ih => simp [stripLit, ih]

theorem stripLit_of_begins_false {lit s : List Char} (h : begins lit s = false) :
    stripLit lit s = none := by
  induction lit generalizing s with
  | nil => simp [begins] at h
  | cons c cs ih =>
    cases s with
    | nil => rfl
    | cons d ds =>
      by_cases hc : c = d
      · simp only [begins, if_pos hc] at h
        simp [stripLit, hc, ih h]
      · simp [stripLit, hc]

theorem matchISAt_none_of_begins_false {s : List Char}
    (h : begins windowLit s = false) : matchISAt s = none := by
  simp [matchISAt, stripLit_of_begins_false h]

theorem searchIS_eq_none_of_no_window {l : List Char}
    (h : occursIn windowLit l = false) : searchIS l = none := by
  induction l with
  | nil => rfl
  | cons c rest ih =>
    simp only [occursIn, Bool.or_eq_false_iff] at h
    simp [searchIS, matchISAt_none_of_begins_false h.1, ih h.2]

theorem takeWhile_nonNl_append {l l2 : List Char} (h : '\n' ∈ l) :
    (l ++ l2).takeWhile nonNl = l.takeWhile nonNl := by
  induction l with
  | nil => simp at h
  | cons c rest ih =>
    by_cases hc : c = '\n'
    · subst hc; simp [List.takeWhile_cons, nonNl]
    · have h' : '\n' ∈ rest := by
        rcases List.mem_cons.mp h with h1 | h1
        · exact absurd h1.symm hc
        · exact h1
      simp [List.takeWhile_cons, nonNl, hc, ih h']

theorem scanClose_eq_none : ∀ (l : List Char), '\n' ∈ l →
    occursIn closeLit (l.takeWhile nonNl) = false → scanClose l = none
  | [], hnl, _ => absurd hnl (by simp)
  | [c], _, _ => rfl
  | c :: d :: rest, hnl, hcl => by
    by_cases hcd : c = '}' ∧ d = ';'
    · exfalso
      obtain ⟨h1, h2⟩ := hcd
      subst h1; subst h2
      simp [List.takeWhile_cons, nonNl, occursIn, begins, closeLit] at hcl
    · by_cases hc : c = '\n'
      · simp [scanClose, hcd, hc]
      · have hnl' : '\n' ∈ d :: rest := by
          rcases List.mem_cons.mp hnl with h1 | h1
          · exact absurd h1.symm hc
          · exact h1
        have hcl' : occursIn closeLit ((d :: rest).takeWhile nonNl) = false := by
          have htw : (c :: d :: rest).takeWhile nonNl = c :: (d :: rest).takeWhile nonNl := by
            simp [List.takeWhile_cons, nonNl, hc]
          rw [htw] at hcl
          simp only [occursIn, Bool.or_eq_false_iff] at hcl
          exact hcl.2
        simp [scanClose, hcd, hc, scanClose_eq_none (d :: rest) hnl' hcl']

theorem matchISAt_mkIS {ibody : List Char} (hnl : '\n' ∈ ibody)
    (hcl : occursIn closeLit (ibody.takeWhile nonNl) = false) :
    matchISAt (mkISText ibody) = none := by
  have h1 : matchISAt (mkISText ibody) =
      (scanClose (ibody ++ [';'])).map (fun inner => '{' :: (inner ++ ['}'])) := rfl
  have hnl2 : '\n' ∈ ibody ++ [';'] := List.mem_append_left _ hnl
  have hcl2 : occursIn closeLit ((ibody ++ [';']).takeWhile nonNl) = false := by
    rw [takeWhile_nonNl_append hnl]; exact hcl
  rw [h1, scanClose_eq_none (ibody ++ [';']) hnl2 hcl2]
  rfl

/-- C1: for every text on which both embedded-state patterns match, the
extractor's result is determined by the INITIAL_STATE capture alone — the
INITIAL_STATE pattern is attempted strictly before the NEXT_DATA pattern,
so any successful extraction carries discriminator INITIAL_STATE,
regardless of where in the text the two markers sit. -/
theorem c1_initial_state_precedence (text g : List Char)
    (h1 : searchIS text = some g) (_h2 : searchND text ≠ none) :
    processContent text =
      (match jsonLoads g with
       | some v => .ok (v, InitialDataType.INITIAL_STATE)
       | none => .error ExtractError.payloadUnparsable) := by
  simp only [processContent, h1]

/-- Witness for C1 on a page holding both markers, the NEXT_DATA one
included after the INITIAL_STATE one: extraction returns the
INITIAL_STATE payload. -/
theorem c1_initial_state_precedence_witness :
    processContent (("window.__INITIAL_STATE__=\x7b\"a\":1\x7d;<script id=\"__NEXT_DATA__\" type=\"application/json\">\x7b\"b\":2\x7d</script>").toList) =
      .ok (.jobj [(['a'], .jnum ['1'])], .INITIAL_STATE) := by
  have h := c1_initial_state_precedence
    (("window.__INITIAL_STATE__=\x7b\"a\":1\x7d;<script id=\"__NEXT_DATA__\" type=\"application/json\">\x7b\"b\":2\x7d</script>").toList)
    (("\x7b\"a\":1\x7d").toList) (by decide) (by decide)
  exact h.trans rfl

/-- C9: when the INITIAL_STATE pattern matches but its capture is
malformed JSON, extraction fails with the unparsable condition even when
the same text carries a NEXT_DATA block whose capture parses fine: the
NEXT_DATA pattern is never consulted once pattern 1 matched. -/
theorem c9_no_nextdata_fallback (text g g2 : List Char) (v2 : Json)
    (h1 : searchIS text = some g) (h2 : jsonLoads g = none)
    (_h3 : searchND text = some g2) (_h4 : jsonLoads g2 = some v2) :
    processContent text = .error .payloadUnparsable := by
  simp only [processContent, h1, h2]

/-- Witness for C9: a page with a malformed INITIAL_STATE payload and a
well-formed NEXT_DATA block still fails with the unparsable condition. -/
theorem c9_no_nextdata_fallback_witness :
    processContent (("window.__INITIAL_STATE__=\x7bbad\x7d;<script id=\"__NEXT_DATA__\" type=\"application/json\">\x7b\"b\":2\x7d</script>").toList) =
      .error .payloadUnparsable :=
  c9_no_nextdata_fallback
    (("window.__INITIAL_STATE__=\x7bbad\x7d;<script id=\"__NEXT_DATA__\" type=\"application/json\">\x7b\"b\":2\x7d</script>").toList)
    (("\x7bbad\x7d").toList) (("\x7b\"b\":2\x7d").toList)
    (.jobj [(['b'], .jnum ['2'])]) (by decide) rfl (by decide) rfl

/-- C3: the extractor fails with the not-found condition exactly when
neither pattern matches; and whenever the capture that was actually
selected (pattern 1's, or pattern 2's when pattern 1 missed) is malformed
JSON, it fails with the distinct unparsable condition instead. -/
theorem c3_error_conditions (text : List Char) :
    (processContent text = .error .stateNotFound ↔
      searchIS text = none ∧ searchND text = none) ∧
    (∀ g, searchIS text = some g → jsonLoads g = none →
      processContent text = .error .payloadUnparsable) ∧
    (∀ g, searchIS text = none → searchND text = some g → jsonLoads g = none →
      processContent text = .error .payloadUnparsable) := by
  refine ⟨⟨fun h => ?_, fun h => ?_⟩, fun g hIS hj => ?_, fun g hIS hND hj => ?_⟩
  · cases hIS : searchIS text with
    | some g =>
      cases hj : jsonLoads g <;> simp [processContent, hIS, hj] at h
    | none =>
      cases hND : searchND text with
      | some g =>
        cases hj : jsonLoads g <;> simp [processContent, hIS, hND, hj] at h
      | none => exact ⟨rfl, rfl⟩
  · simp [processContent, h.1, h.2]
  · simp [processContent, hIS, hj]
  · simp [processContent, hIS, hND, hj]

/-- Witness for C3: a page with no marker fails with the not-found
condition; a page with a matching marker but malformed payload fails with
the unparsable condition. -/
theorem c3_error_conditions_witness :
    processContent (("hello world").toList) = .error .stateNotFound ∧
    processContent (("window.__INITIAL_STATE__=\x7bnope\x7d;").toList) =
      .error .payloadUnparsable :=
  ⟨(c3_error_conditions (("hello world").toList)).1.mpr ⟨by decide, by decide⟩,
   (c3_error_conditions (("window.__INITIAL_STATE__=\x7bnope\x7d;").toList)).2.1
     (("\x7bnope\x7d").toList) (by decide) rfl⟩

/-- Counterexample to C2 as stated: this page text contains the literal
`window.__INITIAL_STATE__={"a":1};`, yet extraction does not return
`{"a":1}` — the leftmost match of the INITIAL_STATE pattern is an earlier
occurrence whose capture is `{}`, and that is what is returned.
Containment of the literal does not determine the result. -/
theorem c2_literal_extraction_counterexample :
    occursIn (("window.__INITIAL_STATE__=\x7b\"a\":1\x7d;").toList)
        (("window.__INITIAL_STATE__=\x7b\x7d;window.__INITIAL_STATE__=\x7b\"a\":1\x7d;").toList) = true ∧
    processContent (("window.__INITIAL_STATE__=\x7b\x7d;window.__INITIAL_STATE__=\x7b\"a\":1\x7d;").toList) ≠
      .ok (.jobj [(['a'], .jnum ['1'])], .INITIAL_STATE) := by
  refine ⟨by decide, fun h => ?_⟩
  have h0 : processContent (("window.__INITIAL_STATE__=\x7b\x7d;window.__INITIAL_STATE__=\x7b\"a\":1\x7d;").toList) =
      .ok (.jobj [], .INITIAL_STATE) := rfl
  rw [h0] at h
  simp at h

/-- C2 amended: for any page text whose leftmost INITIAL_STATE-pattern
match captures `{"a":1}`, extraction returns `({"a":1}, INITIAL_STATE)`;
and for any page text on which the INITIAL_STATE pattern does not match
and whose leftmost NEXT_DATA-pattern match captures `{"b":2}`, extraction
returns `({"b":2}, NEXT_DATA)`. -/
theorem c2_literal_extraction_amended :
    (∀ text, searchIS text = some (("\x7b\"a\":1\x7d").toList) →
      processContent text = .ok (.jobj [(['a'], .jnum ['1'])], .INITIAL_STATE)) ∧
    (∀ text, searchIS text = none → searchND text = some (("\x7b\"b\":2\x7d").toList) →
      processContent text = .ok (.jobj [(['b'], .jnum ['2'])], .NEXT_DATA)) := by
  constructor
  · intro text h
    simp only [processContent, h]
    rfl
  · intro text h1 h2
    simp only [processContent, h1, h2]
    rfl

/-- Witness for the amended C2, instantiated at the two plain pages of the
claim. -/
theorem c2_literal_extraction_witness :
    processContent (("window.__INITIAL_STATE__=\x7b\"a\":1\x7d;").toList) =
      .ok (.jobj [(['a'], .jnum ['1'])], .INITIAL_STATE) ∧
    processContent (("<script id=\"__NEXT_DATA__\" type=\"application/json\">\x7b\"b\":2\x7d</script>").toList) =
      .ok (.jobj [(['b'], .jnum ['2'])], .NEXT_DATA) :=
  ⟨c2_literal_extraction_amended.1 _ (by decide),
   c2_literal_extraction_amended.2 _ (by decide) (by decide)⟩

/-- Counterexample to C10 as stated: in this text the marker
`window.__INITIAL_STATE__=` is present and the JSON object literal
between `=` and the terminating `;` — here `{"a":"};",` newline `"b":1}`,
which is valid JSON — contains a newline; the claim predicts the
INITIAL_STATE pattern cannot match and extraction falls through to
NEXT_DATA.  In fact the non-greedy capture stops at the `};` inside the
string literal on the first line: the pattern does match (capturing the
malformed fragment `{"a":"}`), and extraction fails with the unparsable
condition instead of falling through. -/
theorem c10_multiline_payload_counterexample :
    occursIn (("window.__INITIAL_STATE__=").toList)
        (("window.__INITIAL_STATE__=\x7b\"a\":\"\x7d;\",\n\"b\":1\x7d;").toList) = true ∧
    '\n' ∈ (("\x7b\"a\":\"\x7d;\",\n\"b\":1\x7d").toList) ∧
    (jsonLoads (("\x7b\"a\":\"\x7d;\",\n\"b\":1\x7d").toList)).isSome = true ∧
    searchIS (("window.__INITIAL_STATE__=\x7b\"a\":\"\x7d;\",\n\"b\":1\x7d;").toList) =
      some (("\x7b\"a\":\"\x7d").toList) ∧
    processContent (("window.__INITIAL_STATE__=\x7b\"a\":\"\x7d;\",\n\"b\":1\x7d;").toList) =
      .error .payloadUnparsable :=
  ⟨by decide, by decide, rfl, by decide, rfl⟩

/-- C10 amended: for a page text of the exact shape
`window.__INITIAL_STATE__={` ++ ibody ++ `;` in which the payload
contains a newline, the sequence `};` does not occur in the payload
before its first newline, and `window` does not occur again after
position 0, the INITIAL_STATE pattern does not match (its capture cannot
cross a line boundary), so extraction falls through to the NEXT_DATA
pattern and, when that also fails, fails with the not-found condition
rather than parsing the multi-line payload. -/
theorem c10_multiline_payload_amended (ibody : List Char) (hnl : '\n' ∈ ibody)
    (hcl : occursIn closeLit (ibody.takeWhile nonNl) = false)
    (hw : occursIn windowLit ((mkISText ibody).drop 1) = false) :
    searchIS (mkISText ibody) = none ∧
    (searchND (mkISText ibody) = none →
      processContent (mkISText ibody) = .error .stateNotFound) := by
  have hm : matchISAt (mkISText ibody) = none := matchISAt_mkIS hnl hcl
  have hstep : searchIS (mkISText ibody) =
      (match matchISAt (mkISText ibody) with
       | some g => some g
       | none => searchIS ((mkISText ibody).drop 1)) := rfl
  have hs : searchIS (mkISText ibody) = none := by
    rw [hstep, hm]
    exact searchIS_eq_none_of_no_window hw
  refine ⟨hs, fun hnd => ?_⟩
  simp [processContent, hs, hnd]

/-- Witness for the amended C10 at the payload `{"a":` newline `1}`:
the INITIAL_STATE pattern misses and extraction reports not-found. -/
theorem c10_multiline_payload_witness :
    searchIS (mkISText (("\"a\":\n1\x7d").toList)) = none ∧
    processContent (mkISText (("\"a\":\n1\x7d").toList)) = .error .stateNotFound := by
  have h := c10_multiline_payload_amended (("\"a\":\n1\x7d").toList)
    (by decide) (by decide) (by decide)
  exact ⟨h.1, h.2 (by decide)⟩

theorem get_free_proxies_sync_eq (listing : Option HResponse) :
    get_free_proxies_sync listing = get_free_proxies listing := rfl

theorem fetch_with_proxy_sync_eq (listing : Option HResponse)
    (attempt : Nat → AttemptResult) :
    fetch_with_proxy_sync listing attempt = fetch_with_proxy listing attempt := rfl

theorem proxyLoop_cons_fail (attempt : Nat → AttemptResult) (i : Nat)
    (p : List Char) (rest : List (List Char))
    (h : attemptOk (attempt i) = false) :
    proxyLoop attempt i (p :: rest) =
      (p :: (proxyLoop attempt (i + 1) rest).1, (proxyLoop attempt (i + 1) rest).2) := by
  cases ha : attempt i with
  | ok r =>
    have hr : ¬ r.status = 200 := by
      intro hs
      rw [ha] at h
      simp [attemptOk, hs] at h
    simp [proxyLoop, ha, hr]
  | exn => simp [proxyLoop, ha]

theorem proxyLoop_all_fail (attempt : Nat → AttemptResult) :
    ∀ (ps : List (List Char)) (i : Nat),
      (∀ j, j < ps.length → attemptOk (attempt (i + j)) = false) →
      proxyLoop attempt i ps = (ps, none) := by
  intro ps
  induction ps with
  | nil => intro i _; rfl
  | cons p rest ih =>
    intro i h
    have h0 : attemptOk (attempt i) = false := by simpa using h 0 (by simp)
    have hrest : proxyLoop attempt (i + 1) rest = (rest, none) := by
      apply ih
      intro j hj
      have hx := h (j + 1) (by simpa using Nat.succ_lt_succ hj)
      have harith : i + (j + 1) = i + 1 + j := by omega
      rwa [harith] at hx
    cases ha : attempt i with
    | ok r =>
      have hr : ¬ r.status = 200 := by
        intro hs
        rw [ha] at h0
        simp [attemptOk, hs] at h0
      simp [proxyLoop, ha, hr, hrest]
    | exn => simp [proxyLoop, ha, hrest]

theorem proxyLoop_last_ok (attempt : Nat → AttemptResult) :
    ∀ (ps : List (List Char)) (i : Nat) (r : HResponse),
      ps ≠ [] →
      (∀ j, j < ps.length - 1 → attemptOk (attempt (i + j)) = false) →
      attempt (i + (ps.length - 1)) = .ok r →
      r.status = 200 →
      proxyLoop attempt i ps = (ps, some r) := by
  intro ps
  induction ps with
  | nil => intro i r h; exact absurd rfl h
  | cons p rest ih =>
    intro i r _ hfail hlast h200
    cases rest with
    | nil =>
      have hl : attempt i = .ok r := by simpa using hlast
      simp [proxyLoop, hl, h200]
    | cons q rest2 =>
      have h0 : attemptOk (attempt i) = false := by
        simpa using hfail 0 (by simp)
      have hrest : proxyLoop attempt (i + 1) (q :: rest2) = (q :: rest2, some r) := by
        apply ih (i + 1) r (by simp)
        · intro j hj
          have hx := hfail (j + 1) (by simp at hj ⊢; omega)
          have harith : i + (j + 1) = i + 1 + j := by omega
          rwa [harith] at hx
        · have harith : i + ((p :: q :: rest2).length - 1) =
              i + 1 + ((q :: rest2).length - 1) := by simp; omega
          rwa [harith] at hlast
        · exact h200
      rw [proxyLoop_cons_fail attempt i p (q :: rest2) h0, hrest]

/-- C5: whenever the proxy source yields an empty list, both fallback
fetchers fail at once with the no-proxies-available condition, attempting
zero proxies (empty trace) — there is no direct-connection fallback path
in either function. -/
theorem c5_empty_proxies (listing : Option HResponse) (attempt : Nat → AttemptResult)
    (h : get_free_proxies listing = []) :
    fetch_with_proxy listing attempt = ([], .error .proxyUnavailable) ∧
    fetch_with_proxy_sync listing attempt = ([], .error .proxyUnavailable) := by
  rw [fetch_with_proxy_sync_eq]
  have : fetch_with_proxy listing attempt = ([], .error .proxyUnavailable) := by
    simp [fetch_with_proxy, h]
  exact ⟨this, this⟩

/-- Witness for C5: the listing call failed in transport, the proxy list
is empty, both fetchers fail with the no-proxies condition without any
attempt. -/
theorem c5_empty_proxies_witness :
    fetch_with_proxy none (fun _ => .exn) = ([], .error .proxyUnavailable) ∧
    fetch_with_proxy_sync none (fun _ => .exn) = ([], .error .proxyUnavailable) :=
  c5_empty_proxies none (fun _ => .exn) rfl

/-- Counterexample to C4 as stated: the all-exhausted failure raised by
the fallback fetchers is the constant `Exception("所有代理均请求失败")` —
it does not name the count of attempts.  Exhausting a 1-proxy list and a
2-proxy list (lists of different lengths, as the third conjunct records)
yields the identical failure value, so the condition cannot be said to
name N. -/
theorem c4_fallback_order_counterexample :
    (fetch_with_proxy (some ⟨200, ("1.1.1.1:80").toList⟩) (fun _ => .exn)).2 =
      .error .allProxiesExhausted ∧
    (fetch_with_proxy (some ⟨200, ("1.1.1.1:80\r\n2.2.2.2:80").toList⟩) (fun _ => .exn)).2 =
      .error .allProxiesExhausted ∧
    (get_free_proxies (some ⟨200, ("1.1.1.1:80").toList⟩)).length ≠
      (get_free_proxies (some ⟨200, ("1.1.1.1:80\r\n2.2.2.2:80").toList⟩)).length :=
  ⟨rfl, rfl, by decide⟩

/-- C4 amended: for every proxy list where only the last attempt yields
status 200, both fallback fetchers attempt exactly the whole list in
order (the trace equals the list) and return that last response; and when
every attempt fails, both attempt the whole list in order and fail with
the all-proxies-exhausted condition — which is a constant and does not
carry the count of attempts. -/
theorem c4_fallback_order_amended :
    (∀ (listing : Option HResponse) (attempt : Nat → AttemptResult) (r : HResponse),
      get_free_proxies listing ≠ [] →
      (∀ j, j < (get_free_proxies listing).length - 1 → attemptOk (attempt j) = false) →
      attempt ((get_free_proxies listing).length - 1) = .ok r →
      r.status = 200 →
      fetch_with_proxy listing attempt = (get_free_proxies listing, .ok r) ∧
      fetch_with_proxy_sync listing attempt = (get_free_proxies listing, .ok r)) ∧
    (∀ (listing : Option HResponse) (attempt : Nat → AttemptResult),
      get_free_proxies listing ≠ [] →
      (∀ j, j < (get_free_proxies listing).length → attemptOk (attempt j) = false) →
      fetch_with_proxy listing attempt =
        (get_free_proxies listing, .error .allProxiesExhausted) ∧
      fetch_with_proxy_sync listing attempt =
        (get_free_proxies listing, .error .allProxiesExhausted)) := by
  constructor
  · intro listing attempt r hne hfail hlast h200
    have hloop : proxyLoop attempt 0 (get_free_proxies listing) =
        (get_free_proxies listing, some r) := by
      apply proxyLoop_last_ok attempt _ 0 r hne
      · intro j hj
        have hx := hfail j hj
        simpa using hx
      · simpa using hlast
      · exact h200
    rw [fetch_with_proxy_sync_eq]
    have : fetch_with_proxy listing attempt = (get_free_proxies listing, .ok r) := by
      simp only [fetch_with_proxy, if_neg hne, hloop]
    exact ⟨this, this⟩
  · intro listing attempt hne hfail
    have hloop : proxyLoop attempt 0 (get_free_proxies listing) =
        (get_free_proxies listing, none) := by
      apply proxyLoop_all_fail attempt
      intro j hj
      simpa using hfail j hj
    rw [fetch_with_proxy_sync_eq]
    have : fetch_with_proxy listing attempt =
        (get_free_proxies listing, .error .allProxiesExhausted) := by
      simp only [fetch_with_proxy, if_neg hne, hloop]
    exact ⟨this, this⟩

/-- Witness for the amended C4: a two-proxy list where only the second
attempt returns 200 is walked in order and the second response returned;
with every attempt erroring, both fetchers report exhaustion after the
full list. -/
theorem c4_fallback_order_witness :
    fetch_with_proxy (some ⟨200, ("1.1.1.1:80\r\n2.2.2.2:80").toList⟩)
        (fun j => if j = 1 then .ok ⟨200, ['x']⟩ else .ok ⟨500, []⟩) =
      (get_free_proxies (some ⟨200, ("1.1.1.1:80\r\n2.2.2.2:80").toList⟩), .ok ⟨200, ['x']⟩) ∧
    fetch_with_proxy_sync (some ⟨200, ("1.1.1.1:80\r\n2.2.2.2:80").toList⟩) (fun _ => .exn) =
      (get_free_proxies (some ⟨200, ("1.1.1.1:80\r\n2.2.2.2:80").toList⟩),
        .error .allProxiesExhausted) :=
  ⟨(c4_fallback_order_amended.1 (some ⟨200, ("1.1.1.1:80\r\n2.2.2.2:80").toList⟩)
      (fun j => if j = 1 then .ok ⟨200, ['x']⟩ else .ok ⟨500, []⟩) ⟨200, ['x']⟩
      (by decide) (by decide) (by decide) rfl).1,
   (c4_fallback_order_amended.2 (some ⟨200, ("1.1.1.1:80\r\n2.2.2.2:80").toList⟩)
      (fun _ => .exn) (by decide) (by decide)).2⟩

theorem splitCRLF_no_sep : ∀ (l : List Char), occursIn crlfLit l = false →
    splitCRLF l = [l]
  | [], _ => rfl
  | [c], _ => rfl
  | c :: d :: rest, h => by
    have hb : begins crlfLit (c :: d :: rest) = false ∧
        occursIn crlfLit (d :: rest) = false := by
      simpa only [occursIn, Bool.or_eq_false_iff] using h
    have hcond : ¬ (c = '\r' ∧ d = '\n') := by
      intro hcd
      obtain ⟨h1, h2⟩ := hcd
      subst h1; subst h2
      simp [begins, crlfLit] at hb
    have hrec : splitCRLF (d :: rest) = [d :: rest] :=
      splitCRLF_no_sep (d :: rest) hb.2
    simp [splitCRLF, hcond, hrec]

theorem splitCRLF_append_sep : ∀ (l rest : List Char), occursIn crlfLit l = false →
    splitCRLF (l ++ '\r' :: '\n' :: rest) = l :: splitCRLF rest
  | [], rest, _ => by simp [splitCRLF]
  | [c], rest, h => by
    have hc : ¬ (c = '\r' ∧ '\r' = '\n') := by
      intro hcd
      exact absurd hcd.2 (by decide)
    have hrec : splitCRLF ('\r' :: '\n' :: rest) = [] :: splitCRLF rest := by
      simp [splitCRLF]
    simp [splitCRLF, hc, hrec]
  | c :: c2 :: l'', rest, h => by
    have hb : begins crlfLit (c :: c2 :: l'') = false ∧
        occursIn crlfLit (c2 :: l'') = false := by
      simpa only [occursIn, Bool.or_eq_false_iff] using h
    have hcond : ¬ (c = '\r' ∧ c2 = '\n') := by
      intro hcd
      obtain ⟨h1, h2⟩ := hcd
      subst h1; subst h2
      simp [begins, crlfLit] at hb
    have hrec : splitCRLF ((c2 :: l'') ++ '\r' :: '\n' :: rest) =
        (c2 :: l'') :: splitCRLF rest :=
      splitCRLF_append_sep (c2 :: l'') rest hb.2
    simp only [List.cons_append] at hrec ⊢
    simp [splitCRLF, hcond, hrec]

theorem splitCRLF_join : ∀ (ls : List (List Char)), ls ≠ [] →
    (∀ l ∈ ls, occursIn crlfLit l = false) →
    splitCRLF (joinCRLF ls) = ls
  | [], h, _ => absurd rfl h
  | [l], _, hsep => by
    simp only [joinCRLF]
    exact splitCRLF_no_sep l (hsep l (by simp))
  | l :: l2 :: ls', _, hsep => by
    have h1 : occursIn crlfLit l = false := hsep l (by simp)
    have hrec : splitCRLF (joinCRLF (l2 :: ls')) = l2 :: ls' :=
      splitCRLF_join (l2 :: ls') (by simp) (fun x hx => hsep x (by simp [hx]))
    have hshape : joinCRLF (l :: l2 :: ls') =
        l ++ '\r' :: '\n' :: joinCRLF (l2 :: ls') := by
      simp [joinCRLF, crlfLit]
    rw [hshape, splitCRLF_append_sep l _ h1, hrec]

/-- C6: on a 200 response from the proxy-listing endpoint whose body is a
CRLF-delimited sequence of separator-free lines (with no surrounding
whitespace to strip), both proxy sources return exactly the non-empty
lines, in order, each prefixed with `http://`; and on a transport failure
or any non-200 response both return the empty list instead of failing. -/
theorem c6_proxy_source (ls : List (List Char)) (body : List Char)
    (hbody : body = joinCRLF ls) (hne : ls ≠ [])
    (hsep : ∀ l ∈ ls, occursIn crlfLit l = false)
    (hstrip : pyStrip body = body) :
    (get_free_proxies (some ⟨200, body⟩) =
      (ls.filter (fun l => !l.isEmpty)).map (fun p => httpLit ++ p) ∧
     get_free_proxies_sync (some ⟨200, body⟩) =
      (ls.filter (fun l => !l.isEmpty)).map (fun p => httpLit ++ p)) ∧
    (∀ r : HResponse, r.status ≠ 200 →
      get_free_proxies (some r) = [] ∧ get_free_proxies_sync (some r) = []) ∧
    (get_free_proxies none = [] ∧ get_free_proxies_sync none = []) := by
  refine ⟨?_, fun r hr => ?_, ⟨rfl, rfl⟩⟩
  · subst hbody
    rw [get_free_proxies_sync_eq]
    have : get_free_proxies (some ⟨200, joinCRLF ls⟩) =
        (ls.filter (fun l => !l.isEmpty)).map (fun p => httpLit ++ p) := by
      simp only [get_free_proxies, if_pos rfl]
      rw [hstrip, splitCRLF_join ls hne hsep]
      simp
    exact ⟨this, this⟩
  · rw [get_free_proxies_sync_eq]
    have : get_free_proxies (some r) = [] := by
      simp [get_free_proxies, hr]
    exact ⟨this, this⟩

/-- Witness for C6 on the body `1.2.3.4:80` CRLF (empty line) CRLF
`5.6.7.8:1`: the two non-empty lines come back prefixed, in order. -/
theorem c6_proxy_source_witness :
    get_free_proxies (some ⟨200, joinCRLF [("1.2.3.4:80").toList, [], ("5.6.7.8:1").toList]⟩) =
      [("http://1.2.3.4:80").toList, ("http://5.6.7.8:1").toList] := by
  have h := (c6_proxy_source [("1.2.3.4:80").toList, [], ("5.6.7.8:1").toList]
    (joinCRLF [("1.2.3.4:80").toList, [], ("5.6.7.8:1").toList])
    rfl (by decide) (by decide) (by decide)).1.1
  exact h.trans (by decide)

/-- C7: when the USE_PROXY switch is absent or empty (falsy), both
orchestrator variants select direct mode: the proxy source is never
consulted (the consulted flag is false) and the result is independent of
the proxy listing service's outcome and of the proxy attempt outcomes. -/
theorem c7_direct_mode_no_proxy_source (env : Option (List Char))
    (h : env = none ∨ env = some []) :
    ∀ (listing listing2 : Option HResponse) (attempt attempt2 : Nat → AttemptResult)
      (sessionGet httpxGet : Option HResponse),
      (get_initial_state env listing attempt sessionGet).2 = false ∧
      (get_initial_state_sync env listing attempt httpxGet).2 = false ∧
      get_initial_state env listing attempt sessionGet =
        get_initial_state env listing2 attempt2 sessionGet ∧
      get_initial_state_sync env listing attempt httpxGet =
        get_initial_state_sync env listing2 attempt2 httpxGet := by
  intro listing listing2 attempt attempt2 sessionGet httpxGet
  have hu : useProxyOn env = false := by
    rcases h with h | h <;> subst h <;> rfl
  refine ⟨?_, ?_, ?_, ?_⟩ <;>
    simp only [get_initial_state, get_initial_state_sync, hu, Bool.false_eq_true,
      if_false]
  · cases sessionGet <;> rfl
  · cases httpxGet <;> rfl

/-- Witness for C7 at an absent switch, with the proxy listing service
made available and broken in the two compared runs: direct mode is taken
and the results coincide. -/
theorem c7_direct_mode_no_proxy_source_witness :
    (get_initial_state none (some ⟨200, ['x']⟩) (fun _ => .exn) (some ⟨200, ['y']⟩)).2 =
      false ∧
    get_initial_state none (some ⟨200, ['x']⟩) (fun _ => .exn) (some ⟨200, ['y']⟩) =
      get_initial_state none none (fun _ => .ok ⟨200, []⟩) (some ⟨200, ['y']⟩) := by
  have h := c7_direct_mode_no_proxy_source none (Or.inl rfl)
    (some ⟨200, ['x']⟩) none (fun _ => .exn) (fun _ => .ok ⟨200, []⟩)
    (some ⟨200, ['y']⟩) (some ⟨200, ['y']⟩)
  exact ⟨h.1, h.2.2.1⟩

/-- Counterexample to C8 as stated: the synchronous orchestrator does not
issue its direct request through the shared session collaborator — it
calls module-level `httpx.get` (line 310), a distinct collaborator.  In a
world where the shared session returns a page with a valid INITIAL_STATE
blob while the plain `httpx.get` call returns an unrecognized page, the
two variants disagree on the same url and credential, refuting identical
semantics through the shared session. -/
theorem c8_variant_equivalence_counterexample :
    (get_initial_state none none (fun _ => .exn)
        (some ⟨200, ("window.__INITIAL_STATE__=\x7b\"a\":1\x7d;").toList⟩)).1 =
      .ok (.jobj [(['a'], .jnum ['1'])], .INITIAL_STATE) ∧
    (get_initial_state_sync none none (fun _ => .exn) (some ⟨200, ("oops").toList⟩)).1 =
      .error (.requestFailed (.extract .stateNotFound)) ∧
    (get_initial_state none none (fun _ => .exn)
        (some ⟨200, ("window.__INITIAL_STATE__=\x7b\"a\":1\x7d;").toList⟩)).1 ≠
      (get_initial_state_sync none none (fun _ => .exn) (some ⟨200, ("oops").toList⟩)).1 := by
  have h1 : (get_initial_state none none (fun _ => .exn)
      (some ⟨200, ("window.__INITIAL_STATE__=\x7b\"a\":1\x7d;").toList⟩)).1 =
      .ok (.jobj [(['a'], .jnum ['1'])], .INITIAL_STATE) := rfl
  have h2 : (get_initial_state_sync none none (fun _ => .exn)
      (some ⟨200, ("oops").toList⟩)).1 =
      .error (.requestFailed (.extract .stateNotFound)) := rfl
  refine ⟨h1, h2, fun h => ?_⟩
  rw [h1, h2] at h
  exact Except.noConfusion h

/-- C8 amended: the blocking and suspending orchestrator variants compute
identical results whenever their respective direct-request collaborators
return the same outcome (and the proxy-path collaborators coincide); the
difference is solely which collaborator performs the direct request — the
shared session for the suspending variant, a fresh top-level call for the
blocking one. -/
theorem c8_variant_equivalence_amended (env : Option (List Char))
    (listing : Option HResponse) (attempt : Nat → AttemptResult)
    (direct : Option HResponse) :
    get_initial_state env listing attempt direct =
      get_initial_state_sync env listing attempt direct := rfl
